import Mathlib

/-!
Verification development for the `onebusaway` integration
(`custom_components/onebusaway/`: `sensor.py`, `api.py`, `coordinator.py`).

The Python source is shallowly embedded: dictionaries arriving from the
gateway become structures with `Option` fields (`none` = key absent or JSON
null), Python truthiness is modelled explicitly (`None` and `0` are falsy),
millisecond timestamps are `Int`, true division is `ℚ` division, and Python's
integer floor division `//` is `Int.fdiv`.
-/

namespace OneBusAway

/-- Python truthiness of an optional integer: `None` and `0` are falsy. -/
def truthyInt : Option Int → Bool
  | none => false
  | some n => n != 0

/-- Python `a or b` on two optional integers: `a` when truthy, else `b`. -/
def pyOr (a b : Option Int) : Option Int := if truthyInt a then a else b

/-- Python `x and x > c` for `x` an optional integer and `c` a real bound:
falsy when `x` is `None` or `0`, otherwise the comparison. -/
def truthyGt (o : Option Int) (c : ℚ) : Bool :=
  match o with
  | none => false
  | some n => n != 0 && decide ((n : ℚ) > c)

/-- One element of the payload's `arrivalsAndDepartures` list, restricted to
the keys read by `extract_departure` (sensor.py lines 125-129). -/
structure RawEntry where
  predictedArrivalTime : Option Int
  scheduledArrivalTime : Option Int
  tripHeadsign : Option String
  routeShortName : Option String
  routeId : Option String
deriving DecidableEq

/-- The dictionary built by `extract_departure` (sensor.py lines 142-148). -/
structure DepartureRecord where
  time : ℚ
  type : String
  headsign : String
  routeShortName : String
  schedule_deviation : Option Int
deriving DecidableEq

/-- One element of `references.situations`; each field is the result of the
chain `situation.get(k, {}).get("value", "") or ""` collapsed to an optional
string (`none` = key absent or value `None`, which the `or ""` maps to `""`). -/
structure Situation where
  summary : Option String
  url : Option String
  description : Option String
deriving DecidableEq

/-- The parts of the raw stop payload the coordinator reads:
`data.entry.arrivalsAndDepartures` and `data.references.situations`
(sensor.py lines 81 and 155); each `get` defaults to empty. -/
structure RawData where
  arrivalsAndDepartures : List RawEntry
  situations : List Situation
deriving DecidableEq

/-- Python `route_id not in selected_routes`, negated: membership of the
optional `routeId` in the allow-list (a `None` id is never a member). -/
def routeMem (route_id : Option String) (selected : List String) : Bool :=
  match route_id with
  | some r => selected.contains r
  | none => false

/-- `extract_departure` (sensor.py lines 123-149).  `current` is the
reference instant in milliseconds.  The `(pyOr predicted scheduled).getD 0`
branch with both falsy is unreachable under the guard (the guard requires one
of them truthy), so the `getD 0` default is never exercised. -/
def extract_departure (selected_routes : List String) (current : ℚ)
    (d : RawEntry) : Option DepartureRecord :=
  let predicted := d.predictedArrivalTime
  let scheduled := d.scheduledArrivalTime
  let trip_headsign := d.tripHeadsign.getD "Unknown"
  let route_name := d.routeShortName.getD "Unknown Route"
  let route_id := d.routeId
  if !selected_routes.isEmpty && !routeMem route_id selected_routes then
    none
  else if truthyGt predicted current || truthyGt scheduled current then
    let primary_time : ℚ := (((pyOr predicted scheduled).getD 0 : Int) : ℚ) / 1000
    let deviation : Option Int :=
      if truthyInt predicted && truthyInt scheduled then
        some (Int.fdiv (predicted.getD 0 - scheduled.getD 0) 1000)
      else none
    some { time := primary_time
           type := if truthyGt predicted current then "Predicted" else "Scheduled"
           headsign := trip_headsign
           routeShortName := route_name
           schedule_deviation := deviation }
  else none

/-- `compute_arrivals` (sensor.py lines 115-160): filter-map the entries
through `extract_departure` and sort ascending by time (Python `sorted` is a
stable mergesort on the `time` key). `after` is the reference instant in
seconds; `data` is `self.data` (`none` models `self.data is None`). -/
def compute_arrivals (selected_routes : List String) (data : Option RawData)
    (after : ℚ) : List DepartureRecord :=
  match data with
  | none => []
  | some payload =>
    let current := after * 1000
    let departures :=
      payload.arrivalsAndDepartures.filterMap (extract_departure selected_routes current)
    departures.mergeSort (fun a b => decide (a.time ≤ b.time))

/-! ## Polling tier state machine (`schedule_updates`, sensor.py lines 171-232) -/

/-- `polling_tiers = [30, 60, 90, 180, 300]` (sensor.py line 181). -/
def polling_tiers : List ℕ := [30, 60, 90, 180, 300]

/-- `repeat_limits = [2, 1, 0, 0, 0]` (sensor.py line 182). -/
def repeat_limits : List ℕ := [2, 1, 0, 0, 0]

/-- The scheduler's mutable attributes `_current_interval` and
`_repeat_count`; `getattr` defaults make the initial state `⟨300, 0⟩`. -/
structure TierState where
  currentInterval : ℕ
  repeatCount : ℕ
deriving DecidableEq

/-- `polling_tiers.index(current_interval) if current_interval in
polling_tiers else len(polling_tiers) - 1` (sensor.py line 186). -/
def tierIndexOf (ci : ℕ) : ℕ :=
  if polling_tiers.contains ci then polling_tiers.indexOf ci
  else polling_tiers.length - 1

/-- Target tier from seconds-until-next-arrival (sensor.py lines 190-199);
`none` models `float("inf")` (no upcoming arrival), for which every `<=`
comparison is false. -/
def targetIndex : Option ℚ → ℕ
  | none => 4
  | some s =>
    if s ≤ 3 * 60 then 0
    else if s ≤ 6 * 60 then 1
    else if s ≤ 10 * 60 then 2
    else if s ≤ 15 * 60 then 3
    else 4

/-- The branch logic of `schedule_updates` (sensor.py lines 201-218) given
the already-computed target tier index.  Note `max(tier_index - 1, 0)` is
`ℕ` subtraction, and `min(tier_index + 1, len(polling_tiers) - 1)` is
`min _ 4`. -/
def stepAtTarget (st : TierState) (target_index : ℕ) : TierState :=
  let tier_index := tierIndexOf st.currentInterval
  if tier_index < target_index then
    if st.repeatCount < repeat_limits[tier_index]! then
      { currentInterval := st.currentInterval, repeatCount := st.repeatCount + 1 }
    else
      let t := min (tier_index + 1) (polling_tiers.length - 1)
      { currentInterval := polling_tiers[t]!, repeatCount := 0 }
  else if target_index < tier_index then
    let t := tier_index - 1
    { currentInterval := polling_tiers[t]!, repeatCount := 0 }
  else
    { currentInterval := st.currentInterval, repeatCount := st.repeatCount }

/-- One run of the tier logic of `schedule_updates`: compute the target
tier from seconds-until-next-arrival (lines 190-199), then transition
(lines 201-218). -/
def scheduleStep (st : TierState) (sua : Option ℚ) : TierState :=
  stepAtTarget st (targetIndex sua)

/-- The initial scheduler state: `getattr(self, "_current_interval",
max_interval)` with `max_interval = 300`, `getattr(self, "_repeat_count", 0)`. -/
def initTierState : TierState := { currentInterval := 300, repeatCount := 0 }

/-- Invariant claimed of every reachable scheduler state: the stored interval
is one of the tiers and the repeat count never exceeds the largest limit. -/
def tierInvariant (st : TierState) : Prop :=
  st.currentInterval ∈ polling_tiers ∧ st.repeatCount ≤ 2

instance (st : TierState) : Decidable (tierInvariant st) := by
  unfold tierInvariant; infer_instance

/-! ## API wrapper exception flow (`_api_wrapper`, api.py lines 53-101)

The exception classes of api.py lines 8-17 plus the library exceptions that
participate in the `try`/`except` chain.  The class hierarchy that matters:
`OneBusAwayApiClientCommunicationError` and
`OneBusAwayApiClientAuthenticationError` are subclasses of
`OneBusAwayApiClientError`; all of them, and `asyncio.TimeoutError`,
`aiohttp.ClientError` (with `ClientResponseError` from `raise_for_status` as
a subclass) and `socket.gaierror`, are subclasses of `Exception`. -/

/-- The exception value that escapes a region of `_api_wrapper`. -/
inductive PyExc where
  | apiClientError
  | apiCommunicationError
  | apiAuthenticationError
  | timeoutError
  | aiohttpClientError
  | gaierror
deriving DecidableEq

/-- Whether `except OneBusAwayApiClientAuthenticationError` catches `e`. -/
def catchesAuthenticationError : PyExc → Bool
  | .apiAuthenticationError => true
  | _ => false

/-- Whether `except OneBusAwayApiClientCommunicationError` catches `e`. -/
def catchesCommunicationError : PyExc → Bool
  | .apiCommunicationError => true
  | _ => false

/-- Whether `except OneBusAwayApiClientError` catches `e` (it also catches
both subclasses). -/
def catchesApiClientError : PyExc → Bool
  | .apiClientError => true
  | .apiCommunicationError => true
  | .apiAuthenticationError => true
  | _ => false

/-- The `except` chain of api.py lines 90-101, applied to an exception
raised anywhere inside the `try` body — including the wrapper's own
`raise` statements at lines 80-86, which are inside the `try`:
`asyncio.TimeoutError` and `aiohttp.ClientError`/`socket.gaierror` become
`OneBusAwayApiClientCommunicationError`; every other `Exception` (so in
particular the freshly raised authentication and communication errors) is
re-raised as the generic `OneBusAwayApiClientError`. -/
def exceptChain (e : PyExc) : PyExc :=
  match e with
  | .timeoutError => .apiCommunicationError
  | .aiohttpClientError => .apiCommunicationError
  | .gaierror => .apiCommunicationError
  | _ => .apiClientError

/-- What one HTTP request attempt yields before any status handling. -/
inductive RequestOutcome where
  | status (s : ℕ)
  | timeout
  | clientError
  | gaierror
deriving DecidableEq

/-- Result of one loop iteration of `_api_wrapper`: move to the next
attempt (`continue` on a retryable 429), return the JSON, or raise. -/
inductive AttemptStep where
  | next
  | success
  | fail (e : PyExc)
deriving DecidableEq

/-- One iteration of the retry loop (api.py lines 64-101) at attempt index
`a` with `max_retries = 4`: status 429 retries while `a < 3` and otherwise
raises a communication error; 401/403 raise the authentication error;
`raise_for_status` raises `aiohttp.ClientResponseError` for any status
`≥ 400`; transport failures raise their library exceptions.  Whatever is
raised then passes through `exceptChain`. -/
def runAttempt (a : ℕ) (o : RequestOutcome) : AttemptStep :=
  match o with
  | .timeout => .fail (exceptChain .timeoutError)
  | .clientError => .fail (exceptChain .aiohttpClientError)
  | .gaierror => .fail (exceptChain .gaierror)
  | .status s =>
    if s = 429 then
      if a < 3 then .next
      else .fail (exceptChain .apiCommunicationError)
    else if s = 401 ∨ s = 403 then .fail (exceptChain .apiAuthenticationError)
    else if 400 ≤ s then .fail (exceptChain .aiohttpClientError)
    else .success

/-- Final result of `_api_wrapper`. -/
inductive ApiResult where
  | ok
  | err (e : PyExc)
deriving DecidableEq

/-- The retry loop, driven by the outcome of each attempt; `fuel` bounds the
remaining iterations (`runAttempt` never yields `next` at attempt 3, so the
fuel-exhausted branch is unreachable from `apiWrapper`). -/
def apiWrapperGo (resp : ℕ → RequestOutcome) : ℕ → ℕ → ApiResult
  | _, 0 => .err .apiClientError
  | a, fuel + 1 =>
    match runAttempt a (resp a) with
    | .success => .ok
    | .fail e => .err e
    | .next => apiWrapperGo resp (a + 1) fuel

/-- `_api_wrapper` as a function of the per-attempt request outcomes. -/
def apiWrapper (resp : ℕ → RequestOutcome) : ApiResult :=
  apiWrapperGo resp 0 4

/-! ## Situation rendering (`OneBusAwaySituationSensor`, sensor.py lines 339-419) -/

/-- The whitespace set of Python's `str.strip()`. -/
def isPySpace (c : Char) : Bool :=
  c = ' ' || c = '\t' || c = '\n' || c = '\r' || c = '\x0b' || c = '\x0c'

/-- Strip characters satisfying `p` from both ends of a character list. -/
def stripWhile (p : Char → Bool) (s : List Char) : List Char :=
  ((s.dropWhile p).reverse.dropWhile p).reverse

/-- Auxiliary scan replacing each maximal run of CR/LF characters with one
space; the flag records whether the scan is inside such a run. -/
def collapseNewlineRuns : Bool → List Char → List Char
  | _, [] => []
  | inRun, c :: rest =>
    if c = '\r' || c = '\n' then
      if inRun then collapseNewlineRuns true rest
      else ' ' :: collapseNewlineRuns true rest
    else c :: collapseNewlineRuns false rest

/-- `_sanitize_text` (sensor.py lines 376-379):
`re.sub(r"[\r\n]+", " ", text).strip()`. -/
def sanitize_text (s : List Char) : List Char :=
  stripWhile isPySpace (collapseNewlineRuns false s)

/-- The composition of `.replace("\r\n", "\n").replace("\r", "\n")`
(sensor.py line 401), fused into one left-to-right scan: each CRLF pair
becomes one LF, each remaining CR becomes LF. -/
def normalizeNewlines : List Char → List Char
  | [] => []
  | '\r' :: '\n' :: rest => '\n' :: normalizeNewlines rest
  | '\r' :: rest => '\n' :: normalizeNewlines rest
  | c :: rest => c :: normalizeNewlines rest

/-- Python `.strip("\n")`: strip only LF characters from both ends. -/
def pyStripNewlines (s : List Char) : List Char := stripWhile (· = '\n') s

/-- Python `.split("\n")` (note `"".split("\n") == [""]`). -/
def splitNewlines : List Char → List (List Char)
  | [] => [[]]
  | '\n' :: rest => [] :: splitNewlines rest
  | c :: rest =>
    match splitNewlines rest with
    | [] => [[c]]
    | l :: ls => (c :: l) :: ls

/-- The separator pushed between situation blocks (sensor.py line 393). -/
def sepLine : String := "\n---\n"

/-- The bolded, optionally linked summary line (sensor.py line 397);
the link form is used when `url` is truthy (non-empty). -/
def summaryLine (summary url : String) : String :=
  if url = "" then "**" ++ summary ++ "**"
  else "**[" ++ summary ++ "](" ++ url ++ ")**"

/-- Description handling (sensor.py lines 399-414): normalize CR/LF before
splitting, strip outer newlines, split on LF, keep non-blank lines; the
first surviving line is sanitized into a plain header (kept when non-empty),
each remaining one into a bullet (kept when non-empty). -/
def descriptionLines (raw : String) : List String :=
  let normalized := pyStripNewlines (normalizeNewlines raw.data)
  let raw_lines := (splitNewlines normalized).filter
    (fun ln => !(stripWhile isPySpace ln).isEmpty)
  match raw_lines with
  | [] => []
  | first :: rest =>
    let header := stripWhile isPySpace (sanitize_text first)
    let headerBlock := if header.isEmpty then [] else [String.mk header]
    let bullets := rest.filterMap (fun ln =>
      let safe_line := stripWhile isPySpace (sanitize_text ln)
      if safe_line.isEmpty then none else some ("- " ++ String.mk safe_line))
    headerBlock ++ bullets

/-- The loop body of `extra_state_attributes` (sensor.py lines 387-414) for
the situation at position `index`: a separator when not first, the summary
line only when the summary is truthy, then the description lines
unconditionally. -/
def situationLines (index : ℕ) (situation : Situation) : List String :=
  let summary := situation.summary.getD ""
  let url := situation.url.getD ""
  let sep := if 0 < index then [sepLine] else []
  let summaryBlock := if summary = "" then [] else [summaryLine summary url]
  sep ++ summaryBlock ++ descriptionLines (situation.description.getD "")

/-- `extra_state_attributes` of the situation sensor (sensor.py lines
381-419), reduced to its single attribute: `some` of the LF-joined markdown
when any line was produced, `none` for the empty attribute dictionary. -/
def markdown_content (situations : List Situation) : Option String :=
  let lines := (situations.enum.map (fun p => situationLines p.1 p.2)).flatten
  if lines.isEmpty then none else some (String.intercalate "\n" lines)

/-! ## Coordinator (`OneBusAwaySensorCoordinator`, sensor.py lines 42-232) -/

/-- The arrival-slot reconciliation of `async_update` (sensor.py lines
95-113), on the per-slot `arrival_info` values (`none` = cleared slot).
The loops update slot `i` in place for `i < len(new)`, append a new slot for
each `i` from the old count up to `len(new) - 1`, and clear slots from
`len(new)` to the old count; so position `i` of the result holds
`some new[i]` when `i < len(new)` and `none` for the remaining old
positions. -/
def reconcileSlots (slots : List (Option DepartureRecord))
    (new : List DepartureRecord) : List (Option DepartureRecord) :=
  new.map some ++ List.replicate (slots.length - new.length) none

/-- The Python error that `self.data` raises when the attribute was never
assigned (`__init__` does not set it; only a successful fetch does). -/
inductive PyRuntimeError where
  | attributeError
deriving DecidableEq

/-- The coordinator attributes the claims touch.  `hasDataAttr` records
whether `self.data` has ever been assigned (reading it while `false` raises
`AttributeError`); the tier attributes are read through `getattr` with
defaults and so never raise. -/
structure CoordState where
  hasDataAttr : Bool
  data : Option RawData
  arrivalSlots : List (Option DepartureRecord)
  situations : Option (List Situation)
  tier : TierState
deriving DecidableEq

/-- The coordinator state right after `__init__` (sensor.py lines 45-58):
no `data` attribute, no arrival slots, no situation sensor, tier attributes
at their `getattr` defaults. -/
def initCoordState : CoordState :=
  { hasDataAttr := false, data := none, arrivalSlots := [],
    situations := none, tier := initTierState }

/-- The method call `self.compute_arrivals(after)`: raises `AttributeError`
when `self.data` was never assigned, else runs the pure extraction. -/
def compute_arrivals_method (st : CoordState) (selected : List String)
    (after : ℚ) : Except PyRuntimeError (List DepartureRecord) :=
  if st.hasDataAttr then .ok (compute_arrivals selected st.data after)
  else .error .attributeError

/-- `async_update` (sensor.py lines 66-113) as a state transformer, given
the outcome of the gateway call and the reference instant `now` (seconds).
A fetch error is caught by the `try`/`except` and the method returns with
the state untouched — in particular `self.data` is not assigned.  On
success the payload is stored, the situation sensor is created or updated,
and the arrival slots are reconciled.  The successful branch never raises:
`self.data` was just assigned before `compute_arrivals` reads it. -/
def async_update (st : CoordState) (selected : List String)
    (fetch : Except PyExc RawData) (now : ℚ) : CoordState :=
  match fetch with
  | .error _ => st
  | .ok payload =>
    let st1 : CoordState := { st with hasDataAttr := true, data := some payload }
    let new_arrival_times := compute_arrivals selected st1.data now
    { st1 with
      situations := some payload.situations
      arrivalSlots := reconcileSlots st1.arrivalSlots new_arrival_times }

/-- `schedule_updates` (sensor.py lines 171-232) as a state transformer: it
calls `self.compute_arrivals(time())` — which raises `AttributeError` when
`self.data` was never assigned — computes seconds-until-next-arrival
(`none` models `float("inf")`), and applies the tier transition. -/
def schedule_updates_method (st : CoordState) (selected : List String)
    (now : ℚ) : Except PyRuntimeError CoordState :=
  match compute_arrivals_method st selected now with
  | .error e => .error e
  | .ok arrivals =>
    let sua : Option ℚ :=
      match arrivals with
      | [] => none
      | a :: _ => some (a.time - now)
    .ok { st with tier := scheduleStep st.tier sua }

/-- `async_refresh` (sensor.py lines 60-64): `await self.async_update()`
then `await self.schedule_updates()`. -/
def async_refresh (st : CoordState) (selected : List String)
    (fetch : Except PyExc RawData) (now : ℚ) : Except PyRuntimeError CoordState :=
  schedule_updates_method (async_update st selected fetch now) selected now

/-! ## Theorems -/

/-- C1: for a raw entry whose `predictedArrivalTime` is present (and
nonzero) but not after the reference instant while `scheduledArrivalTime`
is present and strictly after it, the claim says `compute_arrivals` emits
one `Scheduled` record at the scheduled instant.  The code instead emits
the `Scheduled` record at the *predicted* instant: `primary_time =
(predicted or scheduled) / 1000` takes the truthy `predicted` even though
the kind computation already rejected it as past.  Concretely: predicted
50000 ms, scheduled 200000 ms, now 100 s — the record is `Scheduled` at 50 s,
not at 200 s. -/
theorem c1_scheduled_kind_uses_predicted_time :
    compute_arrivals []
      (some { arrivalsAndDepartures :=
                [{ predictedArrivalTime := some 50000
                   scheduledArrivalTime := some 200000
                   tripHeadsign := none
                   routeShortName := none
                   routeId := none }]
              situations := [] }) 100
      = [{ time := 50, type := "Scheduled", headsign := "Unknown",
           routeShortName := "Unknown Route", schedule_deviation := some (-150) }]
    ∧ (50 : ℚ) ≠ 200000 / 1000 := by
  have hextract : extract_departure [] (100 * 1000)
      { predictedArrivalTime := some 50000, scheduledArrivalTime := some 200000,
        tripHeadsign := none, routeShortName := none, routeId := none }
      = some { time := 50, type := "Scheduled", headsign := "Unknown",
               routeShortName := "Unknown Route", schedule_deviation := some (-150) } := by
    norm_num [extract_departure, truthyGt, truthyInt, pyOr, routeMem]
    decide
  constructor
  · simp only [compute_arrivals, List.filterMap_cons, hextract, List.filterMap_nil,
      List.mergeSort_singleton]
  · norm_num

/-- C2: the claim says every record in the output of `compute_arrivals` has
a time strictly after `now`.  The same `(predicted or scheduled)` slip lets
a past predicted instant through whenever the scheduled instant is in the
future: with predicted 60000 ms, scheduled 300000 ms and now 100 s the
single output record sits at 60 s, not after 100 s. -/
theorem c2_past_departure_retained :
    compute_arrivals []
      (some { arrivalsAndDepartures :=
                [{ predictedArrivalTime := some 60000
                   scheduledArrivalTime := some 300000
                   tripHeadsign := none
                   routeShortName := none
                   routeId := none }]
              situations := [] }) 100
      = [{ time := 60, type := "Scheduled", headsign := "Unknown",
           routeShortName := "Unknown Route", schedule_deviation := some (-240) }]
    ∧ ¬ ((100 : ℚ) < 60) := by
  have hextract : extract_departure [] (100 * 1000)
      { predictedArrivalTime := some 60000, scheduledArrivalTime := some 300000,
        tripHeadsign := none, routeShortName := none, routeId := none }
      = some { time := 60, type := "Scheduled", headsign := "Unknown",
               routeShortName := "Unknown Route", schedule_deviation := some (-240) } := by
    norm_num [extract_departure, truthyGt, truthyInt, pyOr, routeMem]
    decide
  constructor
  · simp only [compute_arrivals, List.filterMap_cons, hextract, List.filterMap_nil,
      List.mergeSort_singleton]
  · norm_num

/-- C4: the claim says an HTTP 401/403 response makes `_api_wrapper` raise
an error catchable as `OneBusAwayApiClientAuthenticationError`, and that
exhausted 429 retries raise the distinguished communication error.  In the
code both `raise` statements sit inside the `try` block, so the broad
`except Exception` clause (api.py lines 98-101) re-raises them as the
generic `OneBusAwayApiClientError`: neither an `except
OneBusAwayApiClientAuthenticationError` nor an `except
OneBusAwayApiClientCommunicationError` handler (such as the ones in
coordinator.py lines 46-49) can catch what actually escapes. -/
theorem c4_distinguished_errors_wrapped_generic :
    apiWrapper (fun _ => .status 401) = .err .apiClientError ∧
    apiWrapper (fun _ => .status 403) = .err .apiClientError ∧
    apiWrapper (fun _ => .status 429) = .err .apiClientError ∧
    catchesAuthenticationError .apiClientError = false ∧
    catchesCommunicationError .apiClientError = false := by
  decide

/-- C5: the claim says a gateway error on the very first fetch leaves
`async_update` returning normally and the subsequent `schedule_updates`
call succeeding.  `async_update` does swallow the error, but because
`__init__` never initializes `self.data`, the following
`schedule_updates` call reads the missing attribute inside
`compute_arrivals` and raises `AttributeError`: the initial
`async_refresh` fails. -/
theorem c5_first_fetch_error_crashes_schedule_updates :
    async_update initCoordState [] (.error .apiCommunicationError) 100
      = initCoordState ∧
    schedule_updates_method initCoordState [] 100 = .error .attributeError ∧
    async_refresh initCoordState [] (.error .apiCommunicationError) 100
      = .error .attributeError := by
  refine ⟨rfl, rfl, rfl⟩

/-- Every target tier index produced by the threshold table is at most 4
(sensor.py lines 190-199). -/
theorem targetIndex_le_four (sua : Option ℚ) : targetIndex sua ≤ 4 := by
  cases sua with
  | none => decide
  | some s =>
    simp only [targetIndex]
    split_ifs <;> omega

/-- C3: the claim says that with `targetTier < currentTier` one transition
jumps directly to the target tier.  The code instead moves down by exactly
one tier (`tier_index = max(tier_index - 1, 0)`, sensor.py line 211):
from tier 3 (interval 180 s) with a bus 60 s away (target tier 0) one call
lands on tier 2 (interval 90 s), not tier 0 (interval 30 s). -/
theorem c3_counterexample :
    scheduleStep { currentInterval := 180, repeatCount := 0 } (some 60)
      = { currentInterval := 90, repeatCount := 0 } ∧
    tierIndexOf 180 = 3 ∧ targetIndex (some 60) = 0 ∧ (90 : ℕ) ≠ 30 := by
  have htar : targetIndex (some 60) = 0 := by norm_num [targetIndex]
  refine ⟨?_, by decide, htar, by decide⟩
  show stepAtTarget _ (targetIndex (some 60)) = _
  rw [htar]
  decide

/-- C3 amended: whenever the target tier index is strictly below the
current tier index, one transition moves the current tier down by exactly
one index (toward the target) and resets the repeat count to 0. -/
theorem c3_amended_step_down_one (st : TierState) (sua : Option ℚ)
    (h : targetIndex sua < tierIndexOf st.currentInterval) :
    scheduleStep st sua
      = { currentInterval := polling_tiers[tierIndexOf st.currentInterval - 1]!,
          repeatCount := 0 } := by
  simp only [scheduleStep, stepAtTarget]
  split_ifs <;> first | rfl | (exfalso; omega)

/-- Witness for `c3_amended_step_down_one` at tier 3, target tier 0. -/
theorem c3_amended_step_down_one_witness :
    scheduleStep { currentInterval := 180, repeatCount := 1 } (some 30)
      = { currentInterval := 90, repeatCount := 0 } := by
  have h : targetIndex (some 30) < tierIndexOf 180 := by
    have : targetIndex (some 30) = 0 := by norm_num [targetIndex]
    rw [this]; decide
  have hstep := c3_amended_step_down_one
    { currentInterval := 180, repeatCount := 1 } (some 30) h
  rw [hstep]; decide

/-- C7: whenever the target tier index is strictly above the current tier
index, the transition stays at the current tier and increments the repeat
count while the count is below the current tier's repeat limit, and
otherwise advances by exactly one tier index — which never passes the last
tier — and resets the repeat count to 0. -/
theorem c7_step_up_hysteresis (st : TierState) (sua : Option ℚ)
    (h : tierIndexOf st.currentInterval < targetIndex sua) :
    (st.repeatCount < repeat_limits[tierIndexOf st.currentInterval]! →
      scheduleStep st sua
        = { currentInterval := st.currentInterval,
            repeatCount := st.repeatCount + 1 }) ∧
    (repeat_limits[tierIndexOf st.currentInterval]! ≤ st.repeatCount →
      tierIndexOf st.currentInterval + 1 ≤ polling_tiers.length - 1 ∧
      scheduleStep st sua
        = { currentInterval := polling_tiers[tierIndexOf st.currentInterval + 1]!,
            repeatCount := 0 }) := by
  have htar := targetIndex_le_four sua
  constructor
  · intro hrc
    simp only [scheduleStep, stepAtTarget]
    split_ifs
    rfl
  · intro hrc
    have hle : tierIndexOf st.currentInterval + 1 ≤ polling_tiers.length - 1 := by
      simp only [polling_tiers, List.length_cons, List.length_nil]
      omega
    refine ⟨hle, ?_⟩
    simp only [scheduleStep, stepAtTarget]
    split_ifs <;> first | rw [Nat.min_eq_left hle] | rfl | (exfalso; omega)

/-- Witness for `c7_step_up_hysteresis` at tier 2 (repeat limit 0), target
tier 4: the state advances to tier 3, not tier 4. -/
theorem c7_step_up_hysteresis_witness :
    scheduleStep { currentInterval := 90, repeatCount := 0 } none
      = { currentInterval := 180, repeatCount := 0 } := by
  have h : tierIndexOf 90 < targetIndex none := by decide
  have hstep := (c7_step_up_hysteresis
    { currentInterval := 90, repeatCount := 0 } none h).2 (by decide)
  rw [hstep.2]; decide

/-- Preservation of the tier invariant by the branch logic, checked over
the finitely many tier/repeat/target combinations the invariant allows. -/
theorem stepAtTarget_preserves : ∀ ci ∈ polling_tiers, ∀ rc ≤ 2, ∀ t ≤ 4,
    tierInvariant (stepAtTarget { currentInterval := ci, repeatCount := rc } t) := by
  decide

/-- One scheduling step preserves the tier invariant. -/
theorem scheduleStep_preserves_invariant (st : TierState) (sua : Option ℚ)
    (h : tierInvariant st) : tierInvariant (scheduleStep st sua) :=
  stepAtTarget_preserves st.currentInterval h.1 st.repeatCount h.2
    (targetIndex sua) (targetIndex_le_four sua)

/-- The tier invariant is preserved along any sequence of scheduling steps. -/
theorem foldl_scheduleStep_invariant (inputs : List (Option ℚ)) (st : TierState)
    (h : tierInvariant st) : tierInvariant (inputs.foldl scheduleStep st) := by
  induction inputs generalizing st with
  | nil => exact h
  | cons a as ih => exact ih _ (scheduleStep_preserves_invariant st a h)

/-- C10: from the initial scheduler state (interval 300 s, repeat count 0),
after any sequence of scheduling steps — for any values of
seconds-until-next-arrival, including none/infinity — the stored interval
is an element of the tier table `[30, 60, 90, 180, 300]` and the stored
repeat count is between 0 and 2. -/
theorem c10_tier_invariant (inputs : List (Option ℚ)) :
    tierInvariant (inputs.foldl scheduleStep initTierState) :=
  foldl_scheduleStep_invariant inputs initTierState (by decide)

/-- C6: the claim says the deviation equals `(predicted - scheduled) / 1000`
exactly, in seconds, positive whenever predicted > scheduled.  The code uses
Python floor division `//` (sensor.py line 139): with predicted 200500 ms
and scheduled 200000 ms (now 100 s) the emitted deviation is 0 — not the
exact 0.5 and not positive although predicted > scheduled. -/
theorem c6_counterexample :
    extract_departure [] 100000
      { predictedArrivalTime := some 200500, scheduledArrivalTime := some 200000,
        tripHeadsign := none, routeShortName := none, routeId := none }
      = some { time := 200500 / 1000, type := "Predicted", headsign := "Unknown",
               routeShortName := "Unknown Route", schedule_deviation := some 0 } ∧
    (200500 : Int) > 200000 ∧ ¬ ((0 : Int) > 0) ∧
    (0 : ℚ) ≠ ((200500 : ℚ) - 200000) / 1000 := by
  refine ⟨?_, by norm_num, by norm_num, by norm_num⟩
  norm_num [extract_departure, truthyGt, truthyInt, pyOr, routeMem]
  decide

/-- C6 amended: for every retained entry, the emitted schedule deviation is
the Python floor division `(predicted - scheduled) // 1000` when both time
fields are present and nonzero, and absent when either field is absent. -/
theorem c6_amended_floor_deviation (selected : List String) (current : ℚ)
    (e : RawEntry) (r : DepartureRecord)
    (h : extract_departure selected current e = some r) :
    (∀ p s : Int, e.predictedArrivalTime = some p →
        e.scheduledArrivalTime = some s → p ≠ 0 → s ≠ 0 →
        r.schedule_deviation = some (Int.fdiv (p - s) 1000)) ∧
    ((e.predictedArrivalTime = none ∨ e.scheduledArrivalTime = none) →
        r.schedule_deviation = none) := by
  simp only [extract_departure] at h
  by_cases hfil : (!selected.isEmpty && !routeMem e.routeId selected) = true
  · rw [if_pos hfil] at h
    exact Option.noConfusion h
  · rw [if_neg hfil] at h
    by_cases hguard : (truthyGt e.predictedArrivalTime current
        || truthyGt e.scheduledArrivalTime current) = true
    · rw [if_pos hguard, Option.some_inj] at h
      subst h
      constructor
      · intro p s hp hs hp0 hs0
        simp [hp, hs, truthyInt, hp0, hs0]
      · rintro (hn | hn) <;> simp [hn, truthyInt]
    · rw [if_neg hguard] at h
      exact Option.noConfusion h

/-- Witness for `c6_amended_floor_deviation`: predicted 205000 ms,
scheduled 200000 ms, reference 100000 ms. -/
theorem c6_amended_floor_deviation_witness :
    DepartureRecord.schedule_deviation
      { time := 205, type := "Predicted", headsign := "Unknown",
        routeShortName := "Unknown Route", schedule_deviation := some 5 }
      = some ((205000 - 200000 : Int).fdiv 1000) := by
  have happ := c6_amended_floor_deviation [] 100000
    { predictedArrivalTime := some 205000, scheduledArrivalTime := some 200000,
      tripHeadsign := none, routeShortName := none, routeId := none }
    { time := 205, type := "Predicted", headsign := "Unknown",
      routeShortName := "Unknown Route", schedule_deviation := some 5 }
    (by norm_num [extract_departure, truthyGt, truthyInt, pyOr, routeMem]; decide)
  exact happ.1 205000 200000 rfl rfl (by decide) (by decide)

/-- C8: the claim says a situation whose summary is empty or absent
contributes no lines at all even when its description is non-empty.  In the
code only the bolded summary line is under `if summary:` (sensor.py line
396); the description block (lines 399-414) is rendered regardless, so a
summary-less situation with description "Detour ahead" still renders. -/
theorem c8_counterexample :
    markdown_content [{ summary := none, url := none, description := some "Detour ahead" }]
      = some "Detour ahead" ∧
    some "Detour ahead" ≠ (none : Option String) := by
  constructor
  · decide
  · decide

/-- C8 amended: a situation whose summary is empty or absent contributes no
summary line, but still contributes its separator (when not first) and its
description-derived lines; only the bolded summary line is conditional on a
non-empty summary. -/
theorem c8_amended_empty_summary (s : Situation) (i : ℕ)
    (h : s.summary.getD "" = "") :
    situationLines i s
      = (if 0 < i then [sepLine] else [])
          ++ descriptionLines (s.description.getD "") := by
  simp only [situationLines, h]
  simp

/-- Witness for `c8_amended_empty_summary`: an empty summary at position 2
with description "Note". -/
theorem c8_amended_empty_summary_witness :
    situationLines 2 { summary := some "", url := some "u", description := some "Note" }
      = [sepLine, "Note"] := by
  have h := c8_amended_empty_summary
    { summary := some "", url := some "u", description := some "Note" } 2 rfl
  rw [h]
  decide

/-- C9: with S existing slots and k < S new departures, reconciliation
overwrites slots 0..k-1 with the new records in order, clears slots k..S-1
to the empty state without removing them, and the slot count stays S;
moreover over any sequence of polls the slot count never decreases. -/
theorem c9_slot_reconciliation (slots : List (Option DepartureRecord))
    (new : List DepartureRecord) (h : new.length < slots.length) :
    (reconcileSlots slots new).length = slots.length ∧
    (reconcileSlots slots new).take new.length = new.map some ∧
    (reconcileSlots slots new).drop new.length
      = List.replicate (slots.length - new.length) (none : Option DepartureRecord) ∧
    ∀ (polls : List (List DepartureRecord)) (init : List (Option DepartureRecord)),
      init.length ≤ (polls.foldl reconcileSlots init).length := by
  refine ⟨?_, ?_, ?_, ?_⟩
  · simp only [reconcileSlots, List.length_append, List.length_map,
      List.length_replicate]
    omega
  · exact List.take_left' (List.length_map _ _)
  · exact List.drop_left' (List.length_map _ _)
  · intro polls
    induction polls with
    | nil => intro init; simp
    | cons p ps ih =>
      intro init
      have hstep : init.length ≤ (reconcileSlots init p).length := by
        simp only [reconcileSlots, List.length_append, List.length_map,
          List.length_replicate]
        omega
      calc init.length ≤ (reconcileSlots init p).length := hstep
        _ ≤ (ps.foldl reconcileSlots (reconcileSlots init p)).length := ih _
        _ = ((p :: ps).foldl reconcileSlots init).length := by
              rw [List.foldl_cons]

/-- Witness for `c9_slot_reconciliation`: three prior slots, one new
departure. -/
theorem c9_slot_reconciliation_witness :
    (reconcileSlots [none, none, none]
        [{ time := 50, type := "Scheduled", headsign := "H", routeShortName := "R",
           schedule_deviation := none }]).length = 3 := by
  have h := c9_slot_reconciliation [none, none, none]
    [{ time := 50, type := "Scheduled", headsign := "H", routeShortName := "R",
       schedule_deviation := none }] (by decide)
  simpa using h.1

end OneBusAway
